import Mathlib

/-!
Verification of the odoobrowser repository (src/odoobrowser.py) against its
specification.  The Python module is shallowly embedded: the remote server and
the Fault exception are modelled by `Option` results, the process-wide
`SimpleCache` by an association list, and Python runtime errors (TypeError on
iterating `None`, IndexError on `[][0]`) by an `Except` error type.
-/

namespace OdooBrowser

/-- A Python runtime error raised by the embedded code. -/
inductive PyErr where
  | typeError : PyErr
  | indexError : PyErr
deriving DecidableEq, Repr

/-- An item of an Odoo domain filter: either the prefix OR combinator token
`"|"` or an equality clause tuple `(field, "=", value)`, as built by
`create_model_query` in src/odoobrowser.py. -/
inductive FilterItem where
  | orOp : FilterItem
  | clause (fld op val : String) : FilterItem
deriving DecidableEq, Repr

/-- Embedding of `create_model_query` (src/odoobrowser.py lines 73-95):
builds one `("model", "=", name)` clause per input name; with fewer than two
names the clause list is returned as is, otherwise every clause except the
last is preceded by the `"|"` token. -/
def create_model_query (model_names : List String) : List FilterItem :=
  let query := model_names.map (fun item => FilterItem.clause "model" "=" item)
  if model_names.length < 2 then query
  else
    (query.dropLast.flatMap (fun item => [FilterItem.orOp, item]))
      ++ query.getLast?.toList

/-- Truthiness of a Python value that is either `None` (absent) or a list:
`None` and the empty list are falsy. -/
def truthy {α : Type} (rv : Option (List α)) : Bool :=
  match rv with
  | none => false
  | some l => !l.isEmpty

/-- `SimpleCache.get`: first binding of the key in the association list, or
`None`. -/
def cacheGet {α : Type} (cache : List (String × List α)) (key : String) :
    Option (List α) :=
  (cache.find? (fun kv => kv.1 = key)).map (fun kv => kv.2)

/-- `SimpleCache.set`: bind the key, shadowing any earlier binding. -/
def cacheSet {α : Type} (cache : List (String × List α)) (key : String)
    (v : List α) : List (String × List α) :=
  (key, v) :: cache

/-- Outcome of one `query_odoo` call: the value returned to the caller
(`none` when the remote call faulted), the cache state afterwards, and
whether the remote server was actually contacted. -/
structure QueryOutcome (α : Type) where
  result : Option (List α)
  cache : List (String × List α)
  remoteCalled : Bool
deriving DecidableEq, Repr

/-- Embedding of `query_odoo` (src/odoobrowser.py lines 22-59).  `remote` is
the behaviour of the remote `execute_kw` call: `some results` for a normal
return, `none` for a `Fault`.  The cached value is returned only when it is
truthy (`if rv:`); otherwise the remote call is performed, a successful
result is cached with the 5-minute timeout, and a fault is swallowed,
returning `None` and leaving the cache untouched. -/
def query_odoo {α : Type} (key : String) (remote : Option (List α))
    (cache : List (String × List α)) : QueryOutcome α :=
  let rv := cacheGet cache key
  if truthy rv then
    { result := rv, cache := cache, remoteCalled := false }
  else
    match remote with
    | some results =>
        { result := some results, cache := cacheSet cache key results,
          remoteCalled := true }
    | none =>
        { result := none, cache := cache, remoteCalled := true }

/-- An Odoo model record as returned by the `ir.model` `search_read` call:
its stable `id` and its `model` name. -/
structure Entity where
  id : Nat
  model : String
deriving DecidableEq, Repr

/-- An `ir.model.fields` record: its name and its optional `relation`
attribute.  `relation = none` models both an absent `"relation"` key and a
falsy (`False`) value; `some ""` models a present but empty string, which is
also falsy in Python. -/
structure Field where
  name : String
  relation : Option String
deriving DecidableEq, Repr

/-- The test `if "relation" in field and field["relation"]:` followed by
`if field["relation"] in model_names:` (src/odoobrowser.py lines 119-120). -/
def fieldQualifies (model_names : List String) (f : Field) : Bool :=
  match f.relation with
  | none => false
  | some r => !(r == "") && model_names.contains r

/-- The loop body of `get_models_with_relations` (src/odoobrowser.py lines
113-123): for each entity, fetch its fields (`none` from the façade means the
`for field in fields` iteration raises a TypeError), accumulate the
`(model, fields)` pair, and append every qualifying field to `relations`. -/
def resolveEntities (model_names : List String)
    (fieldsOf : Nat → Option (List Field)) :
    List Entity → Except PyErr (List (Entity × List Field) × List Field)
  | [] => Except.ok ([], [])
  | e :: rest =>
    match fieldsOf e.id with
    | none => Except.error PyErr.typeError
    | some fs =>
      match resolveEntities model_names fieldsOf rest with
      | Except.error err => Except.error err
      | Except.ok (ms, rels) =>
          Except.ok ((e, fs) :: ms, fs.filter (fieldQualifies model_names) ++ rels)

/-- Embedding of `get_models_with_relations` (src/odoobrowser.py lines
109-123).  `entResult` is the value returned by `get_models` (`none` when the
remote call faulted and `query_odoo` returned `None`: the subsequent
`for model in results` then raises a TypeError); `fieldsOf` is the behaviour
of `get_fields` keyed by the entity id. -/
def get_models_with_relations (model_names : List String)
    (entResult : Option (List Entity))
    (fieldsOf : Nat → Option (List Field)) :
    Except PyErr (List (Entity × List Field) × List Field) :=
  match entResult with
  | none => Except.error PyErr.typeError
  | some results => resolveEntities model_names fieldsOf results

/-- The data handed to the `detail.html` template by `view_details`. -/
structure DetailPage (α : Type) where
  object : α
  model : Entity
  fields : List Field
  relations : List Field
deriving DecidableEq, Repr

/-- Embedding of the result-shape adaptation in `view_details`
(src/odoobrowser.py lines 185-203): the template arguments are evaluated in
order `results[0]`, `models[0][0]`, `models[0][1]`; indexing an empty list
raises an IndexError. -/
def view_details {α : Type} (models : List (Entity × List Field))
    (relations : List Field) (results : List α) :
    Except PyErr (DetailPage α) :=
  match results with
  | [] => Except.error PyErr.indexError
  | r :: _ =>
    match models with
    | [] => Except.error PyErr.indexError
    | m :: _ =>
        Except.ok { object := r, model := m.1, fields := m.2, relations := relations }

/-! ## Example remote behaviours used by the witnesses -/

/-- Fields façade for the end-to-end example of §8 item 9: entity 1 has one
field relating to `"m2"`, entity 2 has none. -/
def exFieldsOf : Nat → Option (List Field) :=
  fun i => if i = 1 then some [⟨"f", some "m2"⟩]
           else if i = 2 then some [] else none

/-- Per-entity field lists matching `exFieldsOf`. -/
def exF : Entity → List Field :=
  fun e => if e.id = 1 then [⟨"f", some "m2"⟩] else []

/-- Fields façade for a self-relation example: entity 1 (model `"A"`) has one
field whose relation is `"A"` itself. -/
def selfFieldsOf : Nat → Option (List Field) :=
  fun i => if i = 1 then some [⟨"s", some "A"⟩] else none

/-- Per-entity field lists matching `selfFieldsOf`. -/
def selfF : Entity → List Field :=
  fun e => if e.id = 1 then [⟨"s", some "A"⟩] else []

/-- Fields façade for a two-entity consistency example. -/
def pairFieldsOf : Nat → Option (List Field) :=
  fun i => if i = 3 then some [⟨"g", some "q"⟩, ⟨"h", none⟩]
           else if i = 4 then some [⟨"k", some "z"⟩] else none

/-- Per-entity field lists matching `pairFieldsOf`. -/
def pairF : Entity → List Field :=
  fun e => if e.id = 3 then [⟨"g", some "q"⟩, ⟨"h", none⟩]
           else if e.id = 4 then [⟨"k", some "z"⟩] else []

/-! ## Helper lemmas -/

/-- Interleaving the OR token before every element doubles the length. -/
lemma length_orInterleave (l : List FilterItem) :
    (l.flatMap (fun item => [FilterItem.orOp, item])).length = 2 * l.length := by
  induction l with
  | nil => rfl
  | cons a t ih => simp [ih]; omega

/-- Closed form of the resolver loop when the fields façade answers every
returned entity: the pairs are the entities in order, each with its fields,
and the relations are the concatenated fields filtered by `fieldQualifies`. -/
lemma resolveEntities_spec (model_names : List String)
    (fieldsOf : Nat → Option (List Field)) (F : Entity → List Field)
    (es : List Entity) (h : ∀ e ∈ es, fieldsOf e.id = some (F e)) :
    resolveEntities model_names fieldsOf es =
      Except.ok (es.map (fun e => (e, F e)),
        (es.flatMap F).filter (fieldQualifies model_names)) := by
  induction es with
  | nil => rfl
  | cons e rest ih =>
    have he : fieldsOf e.id = some (F e) := h e (by simp)
    have hrest := ih (fun x hx => h x (by simp [hx]))
    simp [resolveEntities, he, hrest, List.filter_append]

/-! ## Claim theorems -/

/-- C3: for every list of names, the length of the domain filter built by
`create_model_query` equals `len(names) + max(0, len(names) - 1)`: one
equality clause per name plus N−1 OR tokens when N ≥ 2, none otherwise. -/
theorem create_model_query_length (names : List String) :
    (create_model_query names).length = names.length + max 0 (names.length - 1) := by
  unfold create_model_query
  by_cases h : names.length < 2
  · simp only [if_pos h, List.length_map]
    omega
  · rw [if_neg h]
    have hne : names.map (fun item => FilterItem.clause "model" "=" item) ≠ [] := by
      intro hnil
      have hl := congrArg List.length hnil
      simp only [List.length_map, List.length_nil] at hl
      omega
    obtain ⟨a, ha⟩ := Option.isSome_iff_exists.mp (List.getLast?_isSome.mpr hne)
    rw [List.length_append, length_orInterleave, ha]
    simp only [Option.toList_some, List.length_singleton, List.length_dropLast,
      List.length_map]
    omega

/-- C4: `create_model_query` reproduces the worked examples: the empty input
yields the empty filter, a single name yields one clause and no OR token, and
for two or more names the output is OR token, clause, …, OR token, clause,
final clause — the combinator immediately preceding every clause but the
last. -/
theorem create_model_query_examples :
    create_model_query [] = [] ∧
    create_model_query ["sale.order"] = [FilterItem.clause "model" "=" "sale.order"] ∧
    (∀ (init : List String) (lastName : String), init ≠ [] →
      create_model_query (init ++ [lastName]) =
        init.flatMap (fun n => [FilterItem.orOp, FilterItem.clause "model" "=" n])
          ++ [FilterItem.clause "model" "=" lastName]) ∧
    create_model_query ["bus.bus", "edi.edit", "ir.cron"] =
      [FilterItem.orOp, FilterItem.clause "model" "=" "bus.bus",
       FilterItem.orOp, FilterItem.clause "model" "=" "edi.edit",
       FilterItem.clause "model" "=" "ir.cron"] := by
  refine ⟨rfl, rfl, ?_, by decide⟩
  intro init lastName hne
  unfold create_model_query
  have hlen : ¬ (init ++ [lastName]).length < 2 := by
    cases init with
    | nil => exact absurd rfl hne
    | cons a t =>
      simp only [List.length_append, List.length_cons, List.length_nil]
      omega
  rw [if_neg hlen]
  simp [List.map_append, List.dropLast_concat, List.getLast?_concat, List.flatMap_map]

/-- C4 witness: the general interleaving shape applied to the concrete input
`["a"] ++ ["b"]`. -/
theorem create_model_query_examples_witness :
    create_model_query (["a"] ++ ["b"]) =
      ["a"].flatMap (fun n => [FilterItem.orOp, FilterItem.clause "model" "=" n])
        ++ [FilterItem.clause "model" "=" "b"] :=
  create_model_query_examples.2.2.1 ["a"] "b" (by decide)

/-- C1: a field fetched for a returned entity occurs in `relations` exactly
as often as it occurs in the fetched fields when it has a non-empty
`relation` that is a member of the requested names (self-relations included),
and never otherwise. -/
theorem relations_count_spec (model_names : List String) (es : List Entity)
    (fieldsOf : Nat → Option (List Field)) (F : Entity → List Field)
    (h : ∀ e ∈ es, fieldsOf e.id = some (F e))
    (ms : List (Entity × List Field)) (rels : List Field) (f : Field)
    (hok : get_models_with_relations model_names (some es) fieldsOf =
      Except.ok (ms, rels)) :
    rels.count f =
      if fieldQualifies model_names f then (es.flatMap F).count f else 0 := by
  rw [get_models_with_relations, resolveEntities_spec model_names fieldsOf F es h]
    at hok
  obtain ⟨-, hrels⟩ := Prod.mk.injEq .. ▸ Except.ok.inj hok
  subst hrels
  by_cases hq : fieldQualifies model_names f = true
  · rw [if_pos hq, List.count_filter hq]
  · rw [if_neg hq, List.count_eq_zero]
    intro hin
    exact hq (List.of_mem_filter hin)

/-- C1 witness: the self-relation example — one entity `"A"` whose single
field relates to `"A"` itself appears in `relations` exactly once. -/
theorem relations_count_spec_witness :
    List.count (Field.mk "s" (some "A")) [Field.mk "s" (some "A")] =
      if fieldQualifies ["A"] (Field.mk "s" (some "A")) then
        List.count (Field.mk "s" (some "A")) ([Entity.mk 1 "A"].flatMap selfF)
      else 0 :=
  relations_count_spec ["A"] [Entity.mk 1 "A"] selfFieldsOf selfF (by decide)
    [(Entity.mk 1 "A", [Field.mk "s" (some "A")])] [Field.mk "s" (some "A")]
    (Field.mk "s" (some "A")) rfl

/-- C2: the spec requires that an absent façade result be treated as zero
items, but the code iterates directly over the returned value: when
`query_odoo` returns `None` after a remote fault — for the entity list or for
a fields fetch — `get_models_with_relations` raises a TypeError instead of
completing with empty sequences. -/
theorem resolver_crashes_on_absent_result :
    get_models_with_relations ["m1"] none (fun _ => none) =
      Except.error PyErr.typeError ∧
    get_models_with_relations ["m1"] (some [Entity.mk 1 "m1"]) (fun _ => none) =
      Except.error PyErr.typeError :=
  ⟨rfl, rfl⟩

/-- C6: the resolver preserves the remote-returned entity order with no local
re-sorting: the `(Entity, Fields)` pairs are exactly the returned entities in
order, each paired with its fetched fields. -/
theorem resolver_preserves_order (model_names : List String) (es : List Entity)
    (fieldsOf : Nat → Option (List Field)) (F : Entity → List Field)
    (h : ∀ e ∈ es, fieldsOf e.id = some (F e)) :
    get_models_with_relations model_names (some es) fieldsOf =
      Except.ok (es.map (fun e => (e, F e)),
        (es.flatMap F).filter (fieldQualifies model_names)) := by
  rw [get_models_with_relations, resolveEntities_spec model_names fieldsOf F es h]

/-- C6 witness: the end-to-end example — entities `m1`, `m2` returned in that
order, fields `[{relation: "m2"}]` for `m1` and `[]` for `m2`, giving
`entities_with_fields = [(m1, [...]), (m2, [])]` and
`relations = [{relation: "m2"}]`. -/
theorem resolver_preserves_order_witness :
    get_models_with_relations ["m1", "m2"]
        (some [Entity.mk 1 "m1", Entity.mk 2 "m2"]) exFieldsOf =
      Except.ok ([(Entity.mk 1 "m1", [Field.mk "f" (some "m2")]),
                  (Entity.mk 2 "m2", [])],
        [Field.mk "f" (some "m2")]) := by
  have h := resolver_preserves_order ["m1", "m2"]
    [Entity.mk 1 "m1", Entity.mk 2 "m2"] exFieldsOf exF (by decide)
  simpa [exF] using h

/-- C8: the detail view has no emptiness guard: whenever the record query
returns an empty sequence, the first-element selection fails with an
IndexError and no page is produced, whatever the resolver returned. -/
theorem view_details_empty_results_errors (models : List (Entity × List Field))
    (relations : List Field) :
    view_details models relations ([] : List Nat) =
      Except.error PyErr.indexError := rfl

/-- C10: the resolver's two outputs are consistent: `relations` equals the
concatenation, in entity order, of the per-entity fields sequences of
`entities_with_fields`, filtered by "has a non-empty relation that is in the
requested names"; in particular every relation is an element of the fields of
some returned pair. -/
theorem relations_from_fields_consistency (model_names : List String)
    (es : List Entity) (fieldsOf : Nat → Option (List Field))
    (F : Entity → List Field) (h : ∀ e ∈ es, fieldsOf e.id = some (F e))
    (ms : List (Entity × List Field)) (rels : List Field)
    (hok : get_models_with_relations model_names (some es) fieldsOf =
      Except.ok (ms, rels)) :
    rels = (ms.flatMap (fun p => p.2)).filter (fieldQualifies model_names) ∧
      ∀ f ∈ rels, ∃ p ∈ ms, f ∈ p.2 := by
  rw [get_models_with_relations, resolveEntities_spec model_names fieldsOf F es h]
    at hok
  obtain ⟨hms, hrels⟩ := Prod.mk.injEq .. ▸ Except.ok.inj hok
  subst hms
  subst hrels
  have hflat : ((es.map (fun e => (e, F e))).flatMap (fun p => p.2)) = es.flatMap F := by
    rw [List.flatMap_map]
  constructor
  · rw [hflat]
  · intro f hf
    have hmem : f ∈ es.flatMap F := List.mem_of_mem_filter hf
    obtain ⟨e, he, hfe⟩ := List.mem_flatMap.mp hmem
    exact ⟨(e, F e), List.mem_map.mpr ⟨e, he, rfl⟩, hfe⟩

/-- C10 witness: a two-entity example where only one of three fetched fields
qualifies. -/
theorem relations_from_fields_consistency_witness :
    ([Field.mk "g" (some "q")] =
      (([(Entity.mk 3 "p", [Field.mk "g" (some "q"), Field.mk "h" none]),
         (Entity.mk 4 "q", [Field.mk "k" (some "z")])].flatMap (fun p => p.2)).filter
        (fieldQualifies ["p", "q"])) ∧
      ∀ f ∈ [Field.mk "g" (some "q")],
        ∃ p ∈ [(Entity.mk 3 "p", [Field.mk "g" (some "q"), Field.mk "h" none]),
               (Entity.mk 4 "q", [Field.mk "k" (some "z")])], f ∈ p.2) :=
  relations_from_fields_consistency ["p", "q"] [Entity.mk 3 "p", Entity.mk 4 "q"]
    pairFieldsOf pairF (by decide)
    [(Entity.mk 3 "p", [Field.mk "g" (some "q"), Field.mk "h" none]),
     (Entity.mk 4 "q", [Field.mk "k" (some "z")])]
    [Field.mk "g" (some "q")] rfl

/-- C5 counterexample: a first query that succeeds with an empty result list
is cached, but the cached empty list is falsy, so the second identical query
contacts the remote server again — two remote calls, not one. -/
theorem cache_idempotence_counterexample :
    (query_odoo "k" (some ([] : List Nat)) []).result = some [] ∧
    (query_odoo "k" (some ([] : List Nat)) []).remoteCalled = true ∧
    (query_odoo "k" (some ([] : List Nat))
        (query_odoo "k" (some ([] : List Nat)) []).cache).remoteCalled = true := by
  decide

/-- C5 (amended): for every query whose first execution succeeds with a
truthy (non-empty) result, a second identical query within the TTL window
returns the identical result without contacting the remote server — exactly
one remote call across the two invocations. -/
theorem cache_idempotent_truthy {α : Type} (key : String) (results : List α)
    (remote2 : Option (List α)) (cache : List (String × List α))
    (hmiss : truthy (cacheGet cache key) = false) (hne : results ≠ []) :
    (query_odoo key (some results) cache).result = some results ∧
    (query_odoo key (some results) cache).remoteCalled = true ∧
    (query_odoo key remote2
        (query_odoo key (some results) cache).cache).result = some results ∧
    (query_odoo key remote2
        (query_odoo key (some results) cache).cache).remoteCalled = false := by
  have h1 : query_odoo key (some results) cache =
      { result := some results, cache := cacheSet cache key results,
        remoteCalled := true } := by
    simp [query_odoo, hmiss]
  have hget : cacheGet (cacheSet cache key results) key = some results := by
    simp [cacheGet, cacheSet, List.find?_cons_of_pos]
  have htr : truthy (some results) = true := by
    simpa [truthy] using hne
  have h2 : query_odoo key remote2 (cacheSet cache key results) =
      { result := some results, cache := cacheSet cache key results,
        remoteCalled := false } := by
    simp [query_odoo, hget, htr]
  rw [h1]
  exact ⟨rfl, rfl, by rw [h2], by rw [h2]⟩

/-- C5 witness: a first successful fetch of `[1]` on an empty cache followed
by the same query; the second call is served from the cache. -/
theorem cache_idempotent_truthy_witness :
    (query_odoo "k" (some [1]) ([] : List (String × List Nat))).result = some [1] ∧
    (query_odoo "k" (some [1]) ([] : List (String × List Nat))).remoteCalled = true ∧
    (query_odoo "k" none
        (query_odoo "k" (some [1]) ([] : List (String × List Nat))).cache).result =
      some [1] ∧
    (query_odoo "k" none
        (query_odoo "k" (some [1]) ([] : List (String × List Nat))).cache).remoteCalled =
      false :=
  cache_idempotent_truthy "k" [1] none [] (by decide) (by decide)

/-- C7: when the remote execute call raises a fault (and the cache check did
not short-circuit the call), `query_odoo` swallows it, returns an absent
value, and leaves the cache exactly as it was — no entry is created or
overwritten. -/
theorem fault_leaves_cache_unchanged {α : Type} (key : String)
    (cache : List (String × List α))
    (hmiss : truthy (cacheGet cache key) = false) :
    query_odoo key none cache =
      { result := none, cache := cache, remoteCalled := true } := by
  simp [query_odoo, hmiss]

/-- C7 witness: a fault on key `"k"` with an unrelated cached entry leaves
the cache untouched and returns nothing. -/
theorem fault_leaves_cache_unchanged_witness :
    truthy (cacheGet ([("x", [1])] : List (String × List Nat)) "k") = false ∧
    query_odoo "k" none ([("x", [1])] : List (String × List Nat)) =
      { result := none, cache := [("x", [1])], remoteCalled := true } :=
  ⟨by decide, fault_leaves_cache_unchanged "k" [("x", [1])] (by decide)⟩

/-- C9: the cache-hit test `if rv:` is a truthiness test, not a presence
test: a cached falsy value (the empty list) behaves as a miss — the remote
call is performed again and its outcome returned — while any cached
non-empty value short-circuits the remote call. -/
theorem cache_hit_truthiness {α : Type} (key : String)
    (remote : Option (List α)) (cache : List (String × List α)) :
    (cacheGet cache key = some [] →
      (query_odoo key remote cache).remoteCalled = true ∧
      (query_odoo key remote cache).result = remote) ∧
    (∀ l, cacheGet cache key = some l → l ≠ [] →
      query_odoo key remote cache =
        { result := some l, cache := cache, remoteCalled := false }) := by
  constructor
  · intro hempty
    have hfalse : truthy (cacheGet cache key) = false := by
      rw [hempty]
      rfl
    cases remote <;> simp [query_odoo, hfalse]
  · intro l hl hne
    have htr : truthy (some l) = true := by
      simpa [truthy] using hne
    simp [query_odoo, hl, htr]

/-- C9 witness: with `[]` cached under `"k"`, the query contacts the remote
server again and returns the fresh result. -/
theorem cache_hit_truthiness_witness :
    cacheGet ([("k", [])] : List (String × List Nat)) "k" = some [] ∧
    (query_odoo "k" (some [7]) ([("k", [])] : List (String × List Nat))).remoteCalled =
      true ∧
    (query_odoo "k" (some [7]) ([("k", [])] : List (String × List Nat))).result =
      some [7] :=
  ⟨by decide, (cache_hit_truthiness "k" (some [7]) [("k", [])]).1 (by decide)⟩

end OdooBrowser
